import Mathlib

/-!
# PuzzlePlatform: the session handlers of `UPuzzlePlatformGameInstance`

A shallow embedding of `Source/PuzzlePlatform/PuzzlePlatformGameInstance.cpp`.

The game instance is a record of its members; the engine and the online
subsystem are a second record, `Engine`, holding what they answer when the
handlers query them.  Every call a handler makes on the session interface,
the menu, the log, the world or the player controller is recorded, in order,
in a list of `Effect`s.  A handler returns an `Outcome`: the game instance
afterwards, the effects it issued, and the fault that stopped it, if any.
-/

namespace PuzzlePlatform

/-! ## Engine data -/

/-- Engine names.  A name is represented by its canonical spelling, so equality
of representations stands for the engine's comparison of names. -/
abbrev FName := String

/-- The well-known session identifier, source line 12. -/
def SESSION_NAME : FName := "GameSession"

/-- The key of the server-name attribute, source line 13. -/
def SERVER_NAME_SETTINGS_KEY : FName := "ServerName"

/-- The engine's presence-search key, used by `RefreshServerList`. -/
def SEARCH_PRESENCE : FName := "PRESENCESEARCH"

/-- The lobby map URL travelled to after hosting, source line 99. -/
def LOBBY_URL : String := "/Game/Maps/Lobby?listen"

/-- The display name given to a search result without a server name, line 170. -/
def NAME_PLACEHOLDER : String := "Could not find name"

inductive EOnlineDataAdvertisementType where
  | DontAdvertise
  | ViaPingOnly
  | ViaOnlineService
  | ViaOnlineServiceAndPing
deriving DecidableEq, Repr

inductive EOnlineComparisonOp where
  | Equals
  | NotEquals
deriving DecidableEq, Repr

inductive ETravelType where
  | TRAVEL_Absolute
  | TRAVEL_Partial
  | TRAVEL_Relative
deriving DecidableEq, Repr

inductive FColor where
  | Green
  | Blue
deriving DecidableEq, Repr

/-- The result codes of a join, `EOnJoinSessionCompleteResult::Type`. -/
inductive EOnJoinSessionCompleteResult where
  | Success
  | SessionIsFull
  | SessionDoesNotExist
  | CouldNotRetrieveAddress
  | AlreadyInSession
  | UnknownError
deriving DecidableEq, Repr

/-- One keyed session attribute: its string value and how it is advertised. -/
structure FOnlineSessionSetting where
  Data : String
  AdvertisementType : EOnlineDataAdvertisementType
deriving DecidableEq, Repr

/-- The session settings: the four fields `CreateSession` assigns and the keyed
attributes, kept in insertion order.  `NumPublicConnections` is an `int32`. -/
structure FOnlineSessionSettings where
  bIsLANMatch : Bool
  NumPublicConnections : Int
  bShouldAdvertise : Bool
  bUsesPresence : Bool
  Settings : List (FName × FOnlineSessionSetting)
deriving DecidableEq, Repr

/-- A settings object as declared on line 116, before any field is assigned. -/
def FOnlineSessionSettings.fresh : FOnlineSessionSettings :=
  { bIsLANMatch := false, NumPublicConnections := 0, bShouldAdvertise := false,
    bUsesPresence := false, Settings := [] }

/-- The call `Settings.Set(Key, Value, InType)`: overwrite the attribute stored
under `Key`, or add it when there is none. -/
def FOnlineSessionSettings.Set (S : FOnlineSessionSettings) (Key : FName) (Value : String)
    (InType : EOnlineDataAdvertisementType) : FOnlineSessionSettings :=
  { S with
    Settings :=
      if S.Settings.any (fun kv => kv.1 == Key) then
        S.Settings.map (fun kv => if kv.1 = Key then (Key, ⟨Value, InType⟩) else kv)
      else
        S.Settings ++ [(Key, ⟨Value, InType⟩)] }

/-- The call `Settings.Get(Key, Value)`: `some Value` when it returns true. -/
def FOnlineSessionSettings.Get (S : FOnlineSessionSettings) (Key : FName) : Option String :=
  (S.Settings.lookup Key).map (fun v => v.Data)

/-- The part of `FOnlineSession` that `OnFindSessionsComplete` reads.
`NumOpenPublicConnections` is an `int32`. -/
structure FOnlineSession where
  OwningUserName : String
  SessionSettings : FOnlineSessionSettings
  NumOpenPublicConnections : Int
deriving DecidableEq, Repr

/-- One backend search result; `SessionIdStr` is what `GetSessionIdStr()` returns. -/
structure FOnlineSessionSearchResult where
  SessionIdStr : String
  Session : FOnlineSession
deriving DecidableEq, Repr

/-- A query filter of a search: key, boolean value, comparison. -/
structure FOnlineSessionSearchParam where
  Key : FName
  Value : Bool
  ComparisonOp : EOnlineComparisonOp
deriving DecidableEq, Repr

/-- The search object shared with the backend, which fills `SearchResults`. -/
structure FOnlineSessionSearch where
  SearchResults : List FOnlineSessionSearchResult
  MaxSearchResults : Int
  QuerySettings : List FOnlineSessionSearchParam
deriving DecidableEq, Repr

/-- The object `new FOnlineSessionSearch()` of line 138: no results yet.  The
engine's initial `MaxSearchResults` is 1; the filters the engine pre-installs
are not tracked. -/
def FOnlineSessionSearch.fresh : FOnlineSessionSearch :=
  { SearchResults := [], MaxSearchResults := 1, QuerySettings := [] }

/-- Modelled from the spec: `FServerData` is declared in `MenuSystem/MainMenu.h`,
which is not among the source files, so the integer type of its two counters is
not known.  The spec's data model gives them as `int`.  The C++ integer types the
header may declare them with are listed here and the type is a parameter of
`BuildServerData`; `int32` is the spec's `int`. -/
inductive IntegerType where
  | int8
  | uint8
  | int16
  | uint16
  | int32
  | uint32
  | int64
  | uint64
deriving DecidableEq, Repr

/-- The number of values of an integer type, two to the power of its width. -/
def IntegerType.modulus : IntegerType → Int
  | IntegerType.int8 => 256
  | IntegerType.uint8 => 256
  | IntegerType.int16 => 65536
  | IntegerType.uint16 => 65536
  | IntegerType.int32 => 4294967296
  | IntegerType.uint32 => 4294967296
  | IntegerType.int64 => 18446744073709551616
  | IntegerType.uint64 => 18446744073709551616

/-- The least value of an integer type. -/
def IntegerType.least : IntegerType → Int
  | IntegerType.int8 => -128
  | IntegerType.int16 => -32768
  | IntegerType.int32 => -2147483648
  | IntegerType.int64 => -9223372036854775808
  | _ => 0

/-- Whether an integer is a value of the type. -/
def IntegerType.inRange (T : IntegerType) (x : Int) : Prop :=
  T.least ≤ x ∧ x < T.least + T.modulus

instance (T : IntegerType) (x : Int) : Decidable (T.inRange x) :=
  inferInstanceAs (Decidable (_ ∧ _))

/-- The conversion of an integer to the type: the value of the type congruent to
it modulo `modulus`.  Overflow of a signed type wraps in two's complement. -/
def IntegerType.wrap (T : IntegerType) (x : Int) : Int :=
  (x - T.least) % T.modulus + T.least

/-- The type in which C++ computes `a - b` for `a` of the given type and `b` an
`int32`: operands narrower than `int` are promoted to `int`, otherwise the wider
type, and at equal width the unsigned one, is taken. -/
def IntegerType.common : IntegerType → IntegerType
  | IntegerType.uint32 => IntegerType.uint32
  | IntegerType.int64 => IntegerType.int64
  | IntegerType.uint64 => IntegerType.uint64
  | _ => IntegerType.int32

/-- Modelled from the spec: `FServerData`, declared in the missing
`MenuSystem/MainMenu.h`, is the entry handed to the menu for one search result;
its fields are those assigned on lines 159-171.  `CurrentPlayers` and
`MaxPlayers` hold values of the counter type chosen for `BuildServerData`. -/
structure FServerData where
  Name : String
  CurrentPlayers : Int
  MaxPlayers : Int
  HostUsername : String
deriving DecidableEq, Repr

/-! ## State, effects, outcomes -/

/-- The members of `UPuzzlePlatformGameInstance` that the session handlers use.
`SessionInterface` is `SessionInterface.IsValid()`, `Menu` is `Menu != nullptr`,
and `SessionSearch` is `none` when the shared pointer is not valid. -/
structure GameInstance where
  SessionInterface : Bool
  SessionSearch : Option FOnlineSessionSearch
  DesiredServerName : String
  Menu : Bool
deriving DecidableEq, Repr

/-- What the engine and the online subsystem answer.  `SubsystemName` is
`IOnlineSubsystem::Get()->GetSubsystemName()`; it is read only where the session
interface is valid, and `Init` takes the session interface from a subsystem that
exists.  `NamedSessions` lists the names for which `GetNamedSession` is not
null, `ResolvedConnectStrings` the addresses `GetResolvedConnectString` finds.
`GEngine`, `World` and `FirstLocalPlayerController` say whether the pointer of
that name is not null. -/
structure Engine where
  SubsystemName : FName
  NamedSessions : List FName
  ResolvedConnectStrings : List (FName × String)
  GEngine : Bool
  World : Bool
  FirstLocalPlayerController : Bool
deriving DecidableEq, Repr

/-- The test `SessionInterface->GetNamedSession(SessionName) != nullptr`. -/
def Engine.GetNamedSession (E : Engine) (SessionName : FName) : Bool :=
  E.NamedSessions.contains SessionName

/-- The call `SessionInterface->GetResolvedConnectString(SessionName, Address)`:
`some Address` when it returns true, `none` when it returns false. -/
def Engine.GetResolvedConnectString (E : Engine) (SessionName : FName) : Option String :=
  E.ResolvedConnectStrings.lookup SessionName

/-- The calls a handler makes on its collaborators, in the order made. -/
inductive Effect where
  | createSession (HostingPlayerNum : Nat) (SessionName : FName)
      (NewSessionSettings : FOnlineSessionSettings)
  | destroySession (SessionName : FName)
  | findSessions (SearchingPlayerNum : Nat) (SearchSettings : FOnlineSessionSearch)
  | joinSession (PlayerNum : Nat) (SessionName : FName)
      (DesiredSession : FOnlineSessionSearchResult)
  | startSession (SessionName : FName)
  | menuTeardown
  | menuSetServerList (ServerNames : List FServerData)
  | log (Message : String)
  | onScreenDebugMessage (Key : Int) (TimeToDisplay : Nat) (DisplayColor : FColor)
      (DebugMessage : String)
  | ensureFailed (Expression : String)
  | serverTravel (URL : String)
  | clientTravel (URL : String) (TravelType : ETravelType)
deriving DecidableEq, Repr

/-- Ways a handler stops other than by returning. -/
inductive Fault where
  | arrayIndexOutOfRange
  | nullDereference
deriving DecidableEq, Repr

/-- The result of running a handler. -/
structure Outcome where
  self : GameInstance
  effects : List Effect
  fault : Option Fault
deriving DecidableEq, Repr

/-! ## Observations on an effect list -/

/-- The settings of the `createSession` calls among the effects. -/
def createSessionCalls : List Effect → List FOnlineSessionSettings
  | [] => []
  | Effect.createSession _ _ S :: es => S :: createSessionCalls es
  | _ :: es => createSessionCalls es

/-- The session names of the `destroySession` calls among the effects. -/
def destroySessionCalls : List Effect → List FName
  | [] => []
  | Effect.destroySession n :: es => n :: destroySessionCalls es
  | _ :: es => destroySessionCalls es

/-- The search results of the `joinSession` calls among the effects. -/
def joinSessionCalls : List Effect → List FOnlineSessionSearchResult
  | [] => []
  | Effect.joinSession _ _ r :: es => r :: joinSessionCalls es
  | _ :: es => joinSessionCalls es

/-- Whether an effect is a call on the session backend. -/
def Effect.isBackendCall : Effect → Bool
  | Effect.createSession _ _ _ => true
  | Effect.destroySession _ => true
  | Effect.findSessions _ _ => true
  | Effect.joinSession _ _ _ => true
  | Effect.startSession _ => true
  | _ => false

/-- Whether an effect is a travel directive. -/
def Effect.isTravel : Effect → Bool
  | Effect.serverTravel _ => true
  | Effect.clientTravel _ _ => true
  | _ => false

/-- Whether an effect reports something: a log entry, an on-screen message or a
failed `ensure`. -/
def Effect.isReport : Effect → Bool
  | Effect.log _ => true
  | Effect.onScreenDebugMessage _ _ _ _ => true
  | Effect.ensureFailed _ => true
  | _ => false

/-- The backend calls among the effects. -/
def backendCalls (es : List Effect) : List Effect := es.filter Effect.isBackendCall

/-- The travel directives among the effects. -/
def travelDirectives (es : List Effect) : List Effect := es.filter Effect.isTravel

/-- The reports among the effects. -/
def reports (es : List Effect) : List Effect := es.filter Effect.isReport

/-- The server lists handed to the menu among the effects. -/
def serverListsHanded : List Effect → List (List FServerData)
  | [] => []
  | Effect.menuSetServerList L :: es => L :: serverListsHanded es
  | _ :: es => serverListsHanded es

/-! ## The handlers -/

/-- Source lines 112-134. -/
def CreateSession (E : Engine) (G : GameInstance) : Outcome :=
  if G.SessionInterface then
    let SessionSettings := FOnlineSessionSettings.fresh
    let SessionSettings :=
      if E.SubsystemName = "NULL" then
        { SessionSettings with bIsLANMatch := true }
      else
        { SessionSettings with bIsLANMatch := false }
    let SessionSettings := { SessionSettings with NumPublicConnections := 4 }
    let SessionSettings := { SessionSettings with bShouldAdvertise := true }
    let SessionSettings := { SessionSettings with bUsesPresence := true }
    let SessionSettings :=
      SessionSettings.Set SERVER_NAME_SETTINGS_KEY G.DesiredServerName
        EOnlineDataAdvertisementType.ViaOnlineServiceAndPing
    { self := G, effects := [Effect.createSession 0 SESSION_NAME SessionSettings], fault := none }
  else
    { self := G, effects := [], fault := none }

/-- Source lines 65-78. -/
def Host (E : Engine) (G : GameInstance) (ServerName : String) : Outcome :=
  let G := { G with DesiredServerName := ServerName }
  if G.SessionInterface then
    if E.GetNamedSession SESSION_NAME then
      { self := G, effects := [Effect.destroySession SESSION_NAME], fault := none }
    else
      CreateSession E G
  else
    { self := G, effects := [], fault := none }

/-- Source lines 80-100.  A failed `ensure` is reported and the handler returns. -/
def OnCreateSessionComplete (E : Engine) (G : GameInstance) (_SessionName : FName)
    (Success : Bool) : Outcome :=
  if !Success then
    { self := G, effects := [Effect.log "Could not create Session"], fault := none }
  else
    let teardown := if G.Menu then [Effect.menuTeardown] else []
    let message :=
      if E.GEngine then [Effect.onScreenDebugMessage 0 5 FColor.Green "Hosting"] else []
    if !E.World then
      { self := G, effects := teardown ++ message ++ [Effect.ensureFailed "World != nullptr"],
        fault := none }
    else
      { self := G, effects := teardown ++ message ++ [Effect.serverTravel LOBBY_URL],
        fault := none }

/-- Source lines 102-110. -/
def OnDestroySessionComplete (E : Engine) (G : GameInstance) (_SessionName : FName)
    (Success : Bool) : Outcome :=
  if Success then
    CreateSession E G
  else
    { self := G, effects := [], fault := none }

/-- Source lines 136-146.  The new search object is always valid; the session
interface is dereferenced without a validity test. -/
def RefreshServerList (_E : Engine) (G : GameInstance) : Outcome :=
  let SessionSearch := FOnlineSessionSearch.fresh
  let SessionSearch := { SessionSearch with MaxSearchResults := 100 }
  let SessionSearch :=
    { SessionSearch with
      QuerySettings :=
        SessionSearch.QuerySettings ++ [⟨SEARCH_PRESENCE, true, EOnlineComparisonOp.Equals⟩] }
  let G := { G with SessionSearch := some SessionSearch }
  if G.SessionInterface then
    { self := G,
      effects := [Effect.findSessions 0 SessionSearch, Effect.log "Searching for sesssions"],
      fault := none }
  else
    { self := G, effects := [], fault := some Fault.nullDereference }

/-- The body of the loop of `OnFindSessionsComplete`, lines 157-171: the entry
built for one search result, for counters of the integer type `T`.  Line 161
converts the public connection count to `T`; line 162 subtracts in the common
type of `T` and `int32` and converts the difference to `T`.  The session id
string assigned to `Data.Name` on line 159 is overwritten by both branches of
lines 164-171. -/
def BuildServerData (T : IntegerType) (SearchResult : FOnlineSessionSearchResult) :
    FServerData :=
  let HostUsername := SearchResult.Session.OwningUserName
  let MaxPlayers := T.wrap SearchResult.Session.SessionSettings.NumPublicConnections
  let CurrentPlayers :=
    T.wrap (T.common.wrap (MaxPlayers - SearchResult.Session.NumOpenPublicConnections))
  let Name :=
    match SearchResult.Session.SessionSettings.Get SERVER_NAME_SETTINGS_KEY with
    | some ServerName => ServerName
    | none => NAME_PLACEHOLDER
  { Name := Name, CurrentPlayers := CurrentPlayers, MaxPlayers := MaxPlayers,
    HostUsername := HostUsername }

/-- The loop of lines 155-173: it walks the results in order, logging each and
appending its entry to `ServerNames`.  The state is `(ServerNames, log)`. -/
def FindLoop (T : IntegerType) (SearchResults : List FOnlineSessionSearchResult) :
    List FServerData × List Effect :=
  SearchResults.foldl
    (fun acc SearchResult =>
      (acc.1 ++ [BuildServerData T SearchResult],
       acc.2 ++ [Effect.log ("Found Sessions " ++ SearchResult.SessionIdStr)]))
    ([], [])

/-- Source lines 148-176, for counters of the integer type `T`. -/
def OnFindSessionsComplete (T : IntegerType) (_E : Engine) (G : GameInstance)
    (Success : Bool) : Outcome :=
  match Success, G.SessionSearch, G.Menu with
  | true, some SessionSearch, true =>
    let loop := FindLoop T SessionSearch.SearchResults
    { self := G,
      effects :=
        [Effect.log "Finished searching for sessions"] ++ loop.2 ++
          [Effect.menuSetServerList loop.1],
      fault := none }
  | _, _, _ => { self := G, effects := [], fault := none }

/-- Source lines 179-191.  `SearchResults[Index]` has no bound test: an index
past the end stops the handler with a fault after the menu teardown and before
`JoinSession` is called. -/
def Join (_E : Engine) (G : GameInstance) (Index : Nat) : Outcome :=
  if !G.SessionInterface then
    { self := G, effects := [], fault := none }
  else
    match G.SessionSearch with
    | none => { self := G, effects := [], fault := none }
    | some SessionSearch =>
      let teardown := if G.Menu then [Effect.menuTeardown] else []
      match SessionSearch.SearchResults[Index]? with
      | some DesiredSession =>
        { self := G, effects := teardown ++ [Effect.joinSession 0 SESSION_NAME DesiredSession],
          fault := none }
      | none => { self := G, effects := teardown, fault := some Fault.arrayIndexOutOfRange }

/-- Source lines 193-213.  `Result` is not read. -/
def OnJoinSessionComplete (E : Engine) (G : GameInstance) (SessionName : FName)
    (_Result : EOnJoinSessionCompleteResult) : Outcome :=
  if !G.SessionInterface then
    { self := G, effects := [], fault := none }
  else
    match E.GetResolvedConnectString SessionName with
    | none =>
      { self := G, effects := [Effect.log "Could not get connect string. "], fault := none }
    | some Address =>
      let message :=
        if E.GEngine then
          [Effect.onScreenDebugMessage 0 5 FColor.Blue ("Joining: " ++ Address)]
        else []
      if !E.FirstLocalPlayerController then
        { self := G, effects := message ++ [Effect.ensureFailed "PlayerController != nullptr"],
          fault := none }
      else
        { self := G,
          effects := message ++ [Effect.clientTravel Address ETravelType.TRAVEL_Absolute],
          fault := none }

/-- Source lines 215-221. -/
def StartSession (_E : Engine) (G : GameInstance) : Outcome :=
  if G.SessionInterface then
    { self := G, effects := [Effect.startSession SESSION_NAME], fault := none }
  else
    { self := G, effects := [], fault := none }

/-! ## Shared lemmas -/

/-- What `CreateSession` submits: the settings built on lines 116-130, as a
function of the subsystem name and the desired server name. -/
theorem CreateSession_effects (E : Engine) (G : GameInstance) (h : G.SessionInterface = true) :
    (CreateSession E G).effects =
      [Effect.createSession 0 SESSION_NAME
        { bIsLANMatch := decide (E.SubsystemName = "NULL"),
          NumPublicConnections := 4,
          bShouldAdvertise := true,
          bUsesPresence := true,
          Settings :=
            [(SERVER_NAME_SETTINGS_KEY,
              ⟨G.DesiredServerName, EOnlineDataAdvertisementType.ViaOnlineServiceAndPing⟩)] }] := by
  by_cases hn : E.SubsystemName = "NULL" <;>
    simp [CreateSession, h, hn, FOnlineSessionSettings.fresh, FOnlineSessionSettings.Set]

theorem Host_self (E : Engine) (G : GameInstance) (name : String) :
    (Host E G name).self = { G with DesiredServerName := name } := by
  simp only [Host, CreateSession]
  split_ifs <;> rfl

theorem serverListsHanded_append (es es' : List Effect) :
    serverListsHanded (es ++ es') = serverListsHanded es ++ serverListsHanded es' := by
  induction es with
  | nil => rfl
  | cons e es ih => cases e <;> simp [serverListsHanded, ih]

theorem serverListsHanded_logs (f : FOnlineSessionSearchResult → String)
    (R : List FOnlineSessionSearchResult) :
    serverListsHanded (R.map (fun r => Effect.log (f r))) = [] := by
  induction R with
  | nil => rfl
  | cons r R ih => simpa [serverListsHanded] using ih

/-- The loop of `OnFindSessionsComplete` started from any accumulated state. -/
theorem FindLoop_foldl (T : IntegerType) (R : List FOnlineSessionSearchResult)
    (acc : List FServerData × List Effect) :
    R.foldl
        (fun acc SearchResult =>
          (acc.1 ++ [BuildServerData T SearchResult],
           acc.2 ++ [Effect.log ("Found Sessions " ++ SearchResult.SessionIdStr)]))
        acc =
      (acc.1 ++ R.map (BuildServerData T),
       acc.2 ++ R.map (fun r => Effect.log ("Found Sessions " ++ r.SessionIdStr))) := by
  induction R generalizing acc with
  | nil => simp
  | cons r R ih => simp [List.foldl_cons, ih]

/-- The loop builds one entry per result, in the order of the results. -/
theorem FindLoop_eq_map (T : IntegerType) (R : List FOnlineSessionSearchResult) :
    FindLoop T R =
      (R.map (BuildServerData T),
       R.map (fun r => Effect.log ("Found Sessions " ++ r.SessionIdStr))) := by
  simp [FindLoop, FindLoop_foldl]

/-- Converting a value of the type to the type leaves it as it is. -/
theorem IntegerType.wrap_of_inRange (T : IntegerType) (x : Int) (h : T.inRange x) :
    T.wrap x = x := by
  obtain ⟨h1, h2⟩ := h
  have hm : (x - T.least) % T.modulus = x - T.least :=
    Int.emod_eq_of_lt (by omega) (by omega)
  simp only [IntegerType.wrap, hm]
  omega

/-- A value of a counter type is also a value of the type its subtraction is
done in. -/
theorem IntegerType.inRange_common (T : IntegerType) (x : Int) (h : T.inRange x) :
    T.common.inRange x := by
  cases T <;>
    simp only [IntegerType.inRange, IntegerType.least, IntegerType.modulus,
      IntegerType.common] at h ⊢ <;> omega

/-! ## Host -/

/-- C1: for every server name and every state in which the session interface is
valid and the backend holds no session named `SESSION_NAME`, `Host` issues
exactly one backend call, a `createSession`; it issues no `destroySession`; and
the submitted settings carry the attribute `ServerName` equal to the name. -/
theorem Host_no_session_creates_once (E : Engine) (G : GameInstance) (name : String)
    (hvalid : G.SessionInterface = true) (hnone : E.GetNamedSession SESSION_NAME = false) :
    ∃ S : FOnlineSessionSettings,
      (Host E G name).effects = [Effect.createSession 0 SESSION_NAME S] ∧
      createSessionCalls (Host E G name).effects = [S] ∧
      destroySessionCalls (Host E G name).effects = [] ∧
      S.Get SERVER_NAME_SETTINGS_KEY = some name ∧
      (Host E G name).fault = none := by
  have hG : ({ G with DesiredServerName := name } : GameInstance).SessionInterface = true := hvalid
  have hH : Host E G name = CreateSession E { G with DesiredServerName := name } := by
    simp [Host, hvalid, hnone]
  have hC := CreateSession_effects E { G with DesiredServerName := name } hG
  rw [hH, hC]
  refine ⟨_, rfl, rfl, rfl, ?_, ?_⟩
  · simp [FOnlineSessionSettings.Get, List.lookup]
  · simp [CreateSession, hvalid]

/-- A state for C1: the offline subsystem, no session held, hosting "Arena". -/
theorem Host_no_session_creates_once_witness :
    ∃ S : FOnlineSessionSettings,
      (Host ⟨"NULL", [], [], true, true, true⟩ ⟨true, none, "", true⟩ "Arena").effects =
        [Effect.createSession 0 SESSION_NAME S] ∧
      createSessionCalls
        (Host ⟨"NULL", [], [], true, true, true⟩ ⟨true, none, "", true⟩ "Arena").effects = [S] ∧
      destroySessionCalls
        (Host ⟨"NULL", [], [], true, true, true⟩ ⟨true, none, "", true⟩ "Arena").effects = [] ∧
      S.Get SERVER_NAME_SETTINGS_KEY = some "Arena" ∧
      (Host ⟨"NULL", [], [], true, true, true⟩ ⟨true, none, "", true⟩ "Arena").fault = none :=
  Host_no_session_creates_once ⟨"NULL", [], [], true, true, true⟩ ⟨true, none, "", true⟩ "Arena"
    rfl rfl

/-- C2: for every server name and every state in which the session interface is
valid and a session named `SESSION_NAME` exists, `Host` issues exactly one
backend call, a `destroySession`, and no `createSession`.  On the game instance
it leaves, and whatever the engine answers by then, `OnDestroySessionComplete`
with success issues exactly one `createSession`, whose `ServerName` attribute is
the name, and with failure issues no `createSession`. -/
theorem Host_existing_session_destroys_then_recreates (E E' : Engine) (G : GameInstance)
    (name : String) (SessionName : FName)
    (hvalid : G.SessionInterface = true) (hsome : E.GetNamedSession SESSION_NAME = true) :
    (Host E G name).effects = [Effect.destroySession SESSION_NAME] ∧
    destroySessionCalls (Host E G name).effects = [SESSION_NAME] ∧
    createSessionCalls (Host E G name).effects = [] ∧
    (∃ S : FOnlineSessionSettings,
      (OnDestroySessionComplete E' (Host E G name).self SessionName true).effects =
        [Effect.createSession 0 SESSION_NAME S] ∧
      createSessionCalls
        (OnDestroySessionComplete E' (Host E G name).self SessionName true).effects = [S] ∧
      S.Get SERVER_NAME_SETTINGS_KEY = some name) ∧
    createSessionCalls
      (OnDestroySessionComplete E' (Host E G name).self SessionName false).effects = [] := by
  have hH : (Host E G name).effects = [Effect.destroySession SESSION_NAME] := by
    simp [Host, hvalid, hsome]
  have hG : ({ G with DesiredServerName := name } : GameInstance).SessionInterface = true := hvalid
  have hC := CreateSession_effects E' { G with DesiredServerName := name } hG
  have hT : OnDestroySessionComplete E' { G with DesiredServerName := name } SessionName true =
      CreateSession E' { G with DesiredServerName := name } := by
    simp [OnDestroySessionComplete]
  rw [hH, Host_self, hT, hC]
  refine ⟨rfl, rfl, rfl, ⟨_, rfl, rfl, ?_⟩, ?_⟩
  · simp [FOnlineSessionSettings.Get, List.lookup]
  · simp [OnDestroySessionComplete, createSessionCalls]

/-- A state for C2: a stale session is held when "Arena" is hosted. -/
theorem Host_existing_session_destroys_then_recreates_witness :
    (Host ⟨"Steam", ["GameSession"], [], true, true, true⟩ ⟨true, none, "", true⟩
      "Arena").effects = [Effect.destroySession SESSION_NAME] ∧
    createSessionCalls
      (OnDestroySessionComplete ⟨"Steam", [], [], true, true, true⟩
        (Host ⟨"Steam", ["GameSession"], [], true, true, true⟩ ⟨true, none, "", true⟩
          "Arena").self "GameSession" false).effects = [] :=
  have h := Host_existing_session_destroys_then_recreates
    ⟨"Steam", ["GameSession"], [], true, true, true⟩ ⟨"Steam", [], [], true, true, true⟩
    ⟨true, none, "", true⟩ "Arena" "GameSession" rfl (by decide)
  ⟨h.1, h.2.2.2.2⟩

/-! ## CreateSession -/

/-- C3: for every subsystem name and desired server name, when the session
interface is valid `CreateSession` submits settings with `bIsLANMatch` true
exactly when the subsystem name is "NULL", four public connections, advertising
on and presence on; any other state with the same subsystem name and the same
desired name submits the same settings. -/
theorem CreateSession_settings (E : Engine) (G : GameInstance)
    (hvalid : G.SessionInterface = true) :
    ∃ S : FOnlineSessionSettings,
      (CreateSession E G).effects = [Effect.createSession 0 SESSION_NAME S] ∧
      (S.bIsLANMatch = true ↔ E.SubsystemName = "NULL") ∧
      S.NumPublicConnections = 4 ∧
      S.bShouldAdvertise = true ∧
      S.bUsesPresence = true ∧
      S.Get SERVER_NAME_SETTINGS_KEY = some G.DesiredServerName ∧
      ∀ (E' : Engine) (G' : GameInstance), G'.SessionInterface = true →
        E'.SubsystemName = E.SubsystemName → G'.DesiredServerName = G.DesiredServerName →
        (CreateSession E' G').effects = [Effect.createSession 0 SESSION_NAME S] := by
  refine ⟨_, CreateSession_effects E G hvalid, ?_, rfl, rfl, rfl, ?_, ?_⟩
  · simp
  · simp [FOnlineSessionSettings.Get, List.lookup]
  · intro E' G' hv hs hd
    rw [CreateSession_effects E' G' hv, hs, hd]

/-- A state for C3: an online subsystem, so the match is not a LAN match. -/
theorem CreateSession_settings_witness :
    ∃ S : FOnlineSessionSettings,
      (CreateSession ⟨"Steam", [], [], true, true, true⟩ ⟨true, none, "Arena", true⟩).effects =
        [Effect.createSession 0 SESSION_NAME S] ∧
      S.bIsLANMatch = false ∧ S.NumPublicConnections = 4 :=
  have ⟨S, h1, h2, h3, _⟩ :=
    CreateSession_settings ⟨"Steam", [], [], true, true, true⟩ ⟨true, none, "Arena", true⟩ rfl
  ⟨S, h1, by
    cases hb : S.bIsLANMatch
    · rfl
    · exact absurd (h2.mp hb) (by decide), h3⟩

/-! ## OnFindSessionsComplete -/

/-- C4, as stated, fails.  At the spec's example, one result named "Foo" with
four public connections of which one is open, but with no menu, the guard of
line 150 skips the handler body and no server list is handed to the UI.  And the
counters are fixed-width: with `int32` counters, 2147483647 public connections
and -1 open give `CurrentPlayers` -2147483648, and with `uint16` counters, 4
public connections and 5 open give `CurrentPlayers` 65535, neither of which is
`MaxPlayers` less the open connections. -/
theorem OnFindSessionsComplete_without_menu_hands_nothing :
    serverListsHanded
      (OnFindSessionsComplete IntegerType.int32 ⟨"NULL", [], [], true, true, true⟩
        ⟨true,
          some ⟨[⟨"id0", ⟨"host", ⟨true, 4, true, true,
            [("ServerName", ⟨"Foo", EOnlineDataAdvertisementType.ViaOnlineServiceAndPing⟩)]⟩,
            1⟩⟩], 100, []⟩,
          "", false⟩ true).effects = [] ∧
    serverListsHanded
      (OnFindSessionsComplete IntegerType.int32 ⟨"NULL", [], [], true, true, true⟩
        ⟨true, some ⟨[⟨"id0", ⟨"host", ⟨true, 2147483647, true, true, []⟩, -1⟩⟩], 100, []⟩,
          "", true⟩ true).effects =
      [[⟨"Could not find name", -2147483648, 2147483647, "host"⟩]] ∧
    serverListsHanded
      (OnFindSessionsComplete IntegerType.uint16 ⟨"NULL", [], [], true, true, true⟩
        ⟨true, some ⟨[⟨"id0", ⟨"host", ⟨true, 4, true, true, []⟩, 5⟩⟩], 100, []⟩,
          "", true⟩ true).effects =
      [[⟨"Could not find name", 65535, 4, "host"⟩]] := by
  refine ⟨by decide, by decide, by decide⟩

/-- C4, amended: for every integer type of the counters and every list `R` of
backend results, `OnFindSessionsComplete(true)` hands the menu exactly one server
list when a search object holding `R` is installed and a menu exists, and hands
nothing when there is no search object or no menu.  The list handed has the
length and the order of `R`; in its k-th entry `MaxPlayers` is the k-th result's
public connection count converted to the counter type, so equal to it when it is
a value of that type; `CurrentPlayers` is `MaxPlayers` less the open public
connections, computed in fixed-width arithmetic and converted to the counter
type, so equal to that difference when the difference is a value of the type;
`HostUsername` is the owning user name; and `Name` is the `ServerName` attribute
when present and the non-empty placeholder "Could not find name" when absent. -/
theorem OnFindSessionsComplete_server_list (T : IntegerType) (E : Engine) (G : GameInstance) :
    (∀ SessionSearch : FOnlineSessionSearch,
      G.SessionSearch = some SessionSearch → G.Menu = true →
      ∃ L : List FServerData,
        serverListsHanded (OnFindSessionsComplete T E G true).effects = [L] ∧
        L.length = SessionSearch.SearchResults.length ∧
        (∀ (k : Nat) (r : FOnlineSessionSearchResult),
          SessionSearch.SearchResults[k]? = some r →
          ∃ d : FServerData, L[k]? = some d ∧
            d.MaxPlayers = T.wrap r.Session.SessionSettings.NumPublicConnections ∧
            (T.inRange r.Session.SessionSettings.NumPublicConnections →
              d.MaxPlayers = r.Session.SessionSettings.NumPublicConnections) ∧
            d.CurrentPlayers =
              T.wrap (T.common.wrap (d.MaxPlayers - r.Session.NumOpenPublicConnections)) ∧
            (T.inRange (d.MaxPlayers - r.Session.NumOpenPublicConnections) →
              d.CurrentPlayers = d.MaxPlayers - r.Session.NumOpenPublicConnections) ∧
            d.HostUsername = r.Session.OwningUserName ∧
            (∀ v : String, r.Session.SessionSettings.Get SERVER_NAME_SETTINGS_KEY = some v →
              d.Name = v) ∧
            (r.Session.SessionSettings.Get SERVER_NAME_SETTINGS_KEY = none →
              d.Name = "Could not find name"))) ∧
    (G.SessionSearch = none ∨ G.Menu = false →
      serverListsHanded (OnFindSessionsComplete T E G true).effects = []) ∧
    "Could not find name" ≠ "" := by
  refine ⟨?_, ?_, by decide⟩
  · intro SessionSearch hsearch hmenu
    refine ⟨SessionSearch.SearchResults.map (BuildServerData T), ?_, ?_, ?_⟩
    · simp only [OnFindSessionsComplete, hsearch, hmenu, FindLoop_eq_map]
      rw [serverListsHanded_append, serverListsHanded_append, serverListsHanded_logs]
      rfl
    · simp
    · intro k r hk
      refine ⟨BuildServerData T r, ?_, rfl, ?_, rfl, ?_, rfl, ?_, ?_⟩
      · simp [List.getElem?_map, hk]
      · intro hfit
        exact IntegerType.wrap_of_inRange T _ hfit
      · intro hfit
        show T.wrap (T.common.wrap ((BuildServerData T r).MaxPlayers -
          r.Session.NumOpenPublicConnections)) = _
        rw [IntegerType.wrap_of_inRange T.common _ (IntegerType.inRange_common T _ hfit),
          IntegerType.wrap_of_inRange T _ hfit]
      · intro v hv
        simp [BuildServerData, hv]
      · intro hv
        simp [BuildServerData, hv, NAME_PLACEHOLDER]
  · intro h
    rcases h with h | h
    · simp [OnFindSessionsComplete, h, serverListsHanded]
    · cases hs : G.SessionSearch <;> simp [OnFindSessionsComplete, h, hs, serverListsHanded]

/-- The example of the spec for C4 amended, with a menu: one result named "Foo"
with four public connections, one of them open. -/
theorem OnFindSessionsComplete_server_list_witness :
    ∃ L : List FServerData,
      serverListsHanded
        (OnFindSessionsComplete IntegerType.int32 ⟨"NULL", [], [], true, true, true⟩
          ⟨true,
            some ⟨[⟨"id0", ⟨"host", ⟨true, 4, true, true,
              [("ServerName", ⟨"Foo", EOnlineDataAdvertisementType.ViaOnlineServiceAndPing⟩)]⟩,
              1⟩⟩], 100, []⟩,
            "", true⟩ true).effects = [L] ∧
      L.length = 1 ∧
      ∃ d : FServerData, L[0]? = some d ∧ d.Name = "Foo" ∧ d.MaxPlayers = 4 ∧
        d.CurrentPlayers = 3 :=
  have ⟨L, h1, h2, h3⟩ :=
    (OnFindSessionsComplete_server_list IntegerType.int32 ⟨"NULL", [], [], true, true, true⟩
      ⟨true,
        some ⟨[⟨"id0", ⟨"host", ⟨true, 4, true, true,
          [("ServerName", ⟨"Foo", EOnlineDataAdvertisementType.ViaOnlineServiceAndPing⟩)]⟩,
          1⟩⟩], 100, []⟩,
        "", true⟩).1 _ rfl rfl
  have ⟨d, hd, _, hmax, _, hcur, _, hname, _⟩ := h3 0 _ rfl
  have hmax4 : d.MaxPlayers = 4 := hmax (by decide)
  ⟨L, h1, h2, d, hd, hname "Foo" (by decide), hmax4, by
    have h := hcur (by rw [hmax4]; decide)
    rw [h, hmax4]; rfl⟩

/-! ## Join -/

/-- An index past the end of the held results: `Join` tears the menu down when
there is one, then stops on `SearchResults[Index]`; it reports nothing and calls
nothing on the backend. -/
theorem Join_index_past_end (E : Engine) (G : GameInstance) (SessionSearch : FOnlineSessionSearch)
    (Index : Nat) (hvalid : G.SessionInterface = true)
    (hsearch : G.SessionSearch = some SessionSearch)
    (hindex : SessionSearch.SearchResults.length ≤ Index) :
    (Join E G Index).fault = some Fault.arrayIndexOutOfRange ∧
    (Join E G Index).effects = (if G.Menu then [Effect.menuTeardown] else []) ∧
    reports (Join E G Index).effects = [] ∧
    backendCalls (Join E G Index).effects = [] := by
  have hnone : SessionSearch.SearchResults[Index]? = none := List.getElem?_eq_none hindex
  cases hm : G.Menu <;>
    simp [Join, hvalid, hsearch, hnone, hm, reports, backendCalls, Effect.isReport,
      Effect.isBackendCall]

/-- An index inside the held results: `Join` issues exactly one backend call, a
`joinSession` against the result at that index, and returns. -/
theorem Join_index_in_range (E : Engine) (G : GameInstance) (SessionSearch : FOnlineSessionSearch)
    (Index : Nat) (r : FOnlineSessionSearchResult) (hvalid : G.SessionInterface = true)
    (hsearch : G.SessionSearch = some SessionSearch)
    (hindex : SessionSearch.SearchResults[Index]? = some r) :
    (Join E G Index).fault = none ∧
    backendCalls (Join E G Index).effects = [Effect.joinSession 0 SESSION_NAME r] ∧
    joinSessionCalls (Join E G Index).effects = [r] := by
  cases hm : G.Menu <;>
    simp [Join, hvalid, hsearch, hindex, hm, backendCalls, joinSessionCalls, Effect.isBackendCall]

/-- C5, the code at a failing input: with a valid session interface, a menu and
a search object that holds no result, `Join(0)` tears the menu down and then
indexes `SearchResults[0]` past the end.  No `JoinIndexOutOfRange` is reported:
the handler stops with an out-of-range fault and its effects hold no report. -/
theorem Join_zero_on_empty_results :
    Join ⟨"NULL", [], [], true, true, true⟩
        ⟨true, some ⟨[], 100, [⟨SEARCH_PRESENCE, true, EOnlineComparisonOp.Equals⟩]⟩, "", true⟩ 0 =
      { self :=
          ⟨true, some ⟨[], 100, [⟨SEARCH_PRESENCE, true, EOnlineComparisonOp.Equals⟩]⟩, "", true⟩,
        effects := [Effect.menuTeardown],
        fault := some Fault.arrayIndexOutOfRange } ∧
    reports
      (Join ⟨"NULL", [], [], true, true, true⟩
        ⟨true, some ⟨[], 100, [⟨SEARCH_PRESENCE, true, EOnlineComparisonOp.Equals⟩]⟩, "", true⟩
        0).effects = [] := by
  constructor <;> rfl

/-! ## OnJoinSessionComplete -/

/-- The travel directives of `OnJoinSessionComplete` when the connect string
resolves: one client travel to the address if a first local player controller
exists, none otherwise. -/
theorem OnJoinSessionComplete_resolved (E : Engine) (G : GameInstance) (SessionName : FName)
    (Result : EOnJoinSessionCompleteResult) (Address : String)
    (hvalid : G.SessionInterface = true)
    (hfound : E.GetResolvedConnectString SessionName = some Address) :
    travelDirectives (OnJoinSessionComplete E G SessionName Result).effects =
      if E.FirstLocalPlayerController then
        [Effect.clientTravel Address ETravelType.TRAVEL_Absolute]
      else [] := by
  cases hg : E.GEngine <;> cases hp : E.FirstLocalPlayerController <;>
    simp [OnJoinSessionComplete, hvalid, hfound, hg, hp, travelDirectives, Effect.isTravel]

/-- C6, as stated, fails: the connect string of "GameSession" resolves, yet with
no local player controller the `ensure` of line 210 returns and no travel
directive is issued. -/
theorem OnJoinSessionComplete_resolved_without_controller :
    (⟨"Steam", [], [("GameSession", "10.0.0.2:7777")], true, true, false⟩ :
        Engine).GetResolvedConnectString "GameSession" = some "10.0.0.2:7777" ∧
    travelDirectives
      (OnJoinSessionComplete ⟨"Steam", [], [("GameSession", "10.0.0.2:7777")], true, true, false⟩
        ⟨true, none, "", true⟩ "GameSession" EOnJoinSessionCompleteResult.Success).effects = [] ∧
    ¬ travelDirectives
      (OnJoinSessionComplete ⟨"Steam", [], [("GameSession", "10.0.0.2:7777")], true, true, false⟩
        ⟨true, none, "", true⟩ "GameSession" EOnJoinSessionCompleteResult.Success).effects =
      [Effect.clientTravel "10.0.0.2:7777" ETravelType.TRAVEL_Absolute] := by
  refine ⟨by decide, by decide, by decide⟩

/-- C6, amended: in a state whose session interface is valid, for every session
name and join result, when `GetResolvedConnectString` finds nothing the handler
logs "Could not get connect string. " and issues no travel directive (that log
is its only effect); when it finds an address the handler issues exactly one
client travel directive, to that address, if a first local player controller
exists, and no travel directive if there is none. -/
theorem OnJoinSessionComplete_travel (E : Engine) (G : GameInstance) (SessionName : FName)
    (Result : EOnJoinSessionCompleteResult) (hvalid : G.SessionInterface = true) :
    (E.GetResolvedConnectString SessionName = none →
      (OnJoinSessionComplete E G SessionName Result).effects =
        [Effect.log "Could not get connect string. "] ∧
      travelDirectives (OnJoinSessionComplete E G SessionName Result).effects = []) ∧
    (∀ Address : String, E.GetResolvedConnectString SessionName = some Address →
      travelDirectives (OnJoinSessionComplete E G SessionName Result).effects =
        if E.FirstLocalPlayerController then
          [Effect.clientTravel Address ETravelType.TRAVEL_Absolute]
        else []) := by
  constructor
  · intro hnone
    simp [OnJoinSessionComplete, hvalid, hnone, travelDirectives, Effect.isTravel]
  · intro Address hfound
    exact OnJoinSessionComplete_resolved E G SessionName Result Address hvalid hfound

/-- A state for C6 amended: the connect string resolves and a player controller
exists, so one client travel to the address is issued. -/
theorem OnJoinSessionComplete_travel_witness :
    travelDirectives
      (OnJoinSessionComplete ⟨"Steam", [], [("GameSession", "10.0.0.2:7777")], true, true, true⟩
        ⟨true, none, "", true⟩ "GameSession" EOnJoinSessionCompleteResult.Success).effects =
      [Effect.clientTravel "10.0.0.2:7777" ETravelType.TRAVEL_Absolute] :=
  (OnJoinSessionComplete_travel ⟨"Steam", [], [("GameSession", "10.0.0.2:7777")], true, true, true⟩
    ⟨true, none, "", true⟩ "GameSession" EOnJoinSessionCompleteResult.Success rfl).2
    "10.0.0.2:7777" (by decide)

/-- C10, as stated, fails in its last clause: the connect string resolves and
the join is reported as failed (`SessionIsFull`), yet with no local player
controller no travel directive is issued. -/
theorem OnJoinSessionComplete_failed_join_without_controller :
    (⟨"NULL", [], [("GameSession", "192.168.0.5:7777")], false, true, false⟩ :
        Engine).GetResolvedConnectString "GameSession" = some "192.168.0.5:7777" ∧
    travelDirectives
      (OnJoinSessionComplete
        ⟨"NULL", [], [("GameSession", "192.168.0.5:7777")], false, true, false⟩
        ⟨true, none, "", false⟩ "GameSession"
        EOnJoinSessionCompleteResult.SessionIsFull).effects = [] := by
  refine ⟨by decide, by decide⟩

/-- C10, amended: the outcome of `OnJoinSessionComplete` does not depend on the
join result code: for every state, session name and answer of
`GetResolvedConnectString`, any two result codes give the same outcome.  So for
every result code, also one that reports the join as failed, a client travel to
the resolved address is issued whenever the session interface is valid, the
connect string resolves and a first local player controller exists. -/
theorem OnJoinSessionComplete_ignores_result :
    (∀ (E : Engine) (G : GameInstance) (SessionName : FName)
        (Result Result' : EOnJoinSessionCompleteResult),
      OnJoinSessionComplete E G SessionName Result =
        OnJoinSessionComplete E G SessionName Result') ∧
    (∀ (E : Engine) (G : GameInstance) (SessionName : FName)
        (Result : EOnJoinSessionCompleteResult) (Address : String),
      G.SessionInterface = true → E.GetResolvedConnectString SessionName = some Address →
      E.FirstLocalPlayerController = true →
      travelDirectives (OnJoinSessionComplete E G SessionName Result).effects =
        [Effect.clientTravel Address ETravelType.TRAVEL_Absolute]) := by
  constructor
  · intro E G SessionName Result Result'
    rfl
  · intro E G SessionName Result Address hvalid hfound hpc
    rw [OnJoinSessionComplete_resolved E G SessionName Result Address hvalid hfound, hpc]
    rfl

/-- A state for C10 amended: the join is reported as failed with `SessionIsFull`
and the client still travels to the resolved address. -/
theorem OnJoinSessionComplete_ignores_result_witness :
    travelDirectives
      (OnJoinSessionComplete ⟨"NULL", [], [("GameSession", "192.168.0.5:7777")], false, true, true⟩
        ⟨true, none, "", false⟩ "GameSession"
        EOnJoinSessionCompleteResult.SessionIsFull).effects =
      [Effect.clientTravel "192.168.0.5:7777" ETravelType.TRAVEL_Absolute] :=
  OnJoinSessionComplete_ignores_result.2
    ⟨"NULL", [], [("GameSession", "192.168.0.5:7777")], false, true, true⟩
    ⟨true, none, "", false⟩ "GameSession" EOnJoinSessionCompleteResult.SessionIsFull
    "192.168.0.5:7777" rfl (by decide) rfl

/-! ## OnCreateSessionComplete -/

/-- C7, as stated, fails: creation succeeded, but no menu exists, so the guard
of line 88 skips the teardown while the server travel is still issued; and with
a menu but no world, the `ensure` of line 98 returns after the teardown and no
travel directive is issued. -/
theorem OnCreateSessionComplete_success_without_menu :
    Effect.menuTeardown ∉
      (OnCreateSessionComplete ⟨"NULL", [], [], true, true, true⟩ ⟨true, none, "Arena", false⟩
        "GameSession" true).effects ∧
    (OnCreateSessionComplete ⟨"NULL", [], [], true, true, true⟩ ⟨true, none, "Arena", false⟩
        "GameSession" true).effects =
      [Effect.onScreenDebugMessage 0 5 FColor.Green "Hosting", Effect.serverTravel LOBBY_URL] ∧
    travelDirectives
      (OnCreateSessionComplete ⟨"NULL", [], [], true, false, true⟩ ⟨true, none, "Arena", true⟩
        "GameSession" true).effects = [] := by
  refine ⟨by decide, by decide, by decide⟩

/-- C7, amended: for every session name, `OnCreateSessionComplete` with failure
logs "Could not create Session" and does nothing else; with success it issues no
backend call, signals menu teardown exactly when a menu exists, and issues
exactly one server travel directive, to "/Game/Maps/Lobby?listen", when the world
exists and no travel directive when it does not. -/
theorem OnCreateSessionComplete_effects (E : Engine) (G : GameInstance) (SessionName : FName) :
    OnCreateSessionComplete E G SessionName false =
      { self := G, effects := [Effect.log "Could not create Session"], fault := none } ∧
    backendCalls (OnCreateSessionComplete E G SessionName true).effects = [] ∧
    (Effect.menuTeardown ∈ (OnCreateSessionComplete E G SessionName true).effects ↔
      G.Menu = true) ∧
    travelDirectives (OnCreateSessionComplete E G SessionName true).effects =
      (if E.World then [Effect.serverTravel "/Game/Maps/Lobby?listen"] else []) ∧
    (OnCreateSessionComplete E G SessionName true).self = G := by
  refine ⟨rfl, ?_, ?_, ?_, ?_⟩ <;>
    cases hm : G.Menu <;> cases hg : E.GEngine <;> cases hw : E.World <;>
      simp [OnCreateSessionComplete, hm, hg, hw, backendCalls, travelDirectives,
        Effect.isBackendCall, Effect.isTravel, LOBBY_URL]

/-! ## OnDestroySessionComplete -/

/-- C9, the code at a failing input: a stale session is held and its destroy
fails.  `OnDestroySessionComplete` issues no `createSession`, as the claim says,
but it has no effect at all: no log entry and no notification reports the failed
destroy, where the failure paths of `OnCreateSessionComplete` (line 84) and
`OnJoinSessionComplete` (line 200) do log. -/
theorem OnDestroySessionComplete_failure_reports_nothing :
    OnDestroySessionComplete ⟨"Steam", ["GameSession"], [], true, true, true⟩
        ⟨true, none, "Arena", true⟩ "GameSession" false =
      { self := ⟨true, none, "Arena", true⟩, effects := [], fault := none } ∧
    createSessionCalls
      (OnDestroySessionComplete ⟨"Steam", ["GameSession"], [], true, true, true⟩
        ⟨true, none, "Arena", true⟩ "GameSession" false).effects = [] ∧
    (¬ ∃ e ∈ (OnDestroySessionComplete ⟨"Steam", ["GameSession"], [], true, true, true⟩
        ⟨true, none, "Arena", true⟩ "GameSession" false).effects, e.isReport = true) ∧
    reports
      (OnCreateSessionComplete ⟨"Steam", ["GameSession"], [], true, true, true⟩
        ⟨true, none, "Arena", true⟩ "GameSession" false).effects =
      [Effect.log "Could not create Session"] := by
  refine ⟨rfl, rfl, ?_, rfl⟩
  simp [OnDestroySessionComplete]

/-! ## RefreshServerList and the held search results -/

/-- C8, as stated, fails: a completed search holds the one result `R[0]`; once
`RefreshServerList` has started a new search, the held search object is the new
one, with no result, and `Join(0)` issues no `joinSession` against `R[0]`. -/
theorem Join_after_RefreshServerList_misses_old_results :
    (RefreshServerList ⟨"NULL", [], [], true, true, true⟩
        ⟨true,
          some ⟨[⟨"id0", ⟨"host", ⟨true, 4, true, true, []⟩, 1⟩⟩], 100,
            [⟨SEARCH_PRESENCE, true, EOnlineComparisonOp.Equals⟩]⟩,
          "", true⟩).self.SessionSearch =
      some ⟨[], 100, [⟨SEARCH_PRESENCE, true, EOnlineComparisonOp.Equals⟩]⟩ ∧
    joinSessionCalls
      (Join ⟨"NULL", [], [], true, true, true⟩
        (RefreshServerList ⟨"NULL", [], [], true, true, true⟩
          ⟨true,
            some ⟨[⟨"id0", ⟨"host", ⟨true, 4, true, true, []⟩, 1⟩⟩], 100,
              [⟨SEARCH_PRESENCE, true, EOnlineComparisonOp.Equals⟩]⟩,
            "", true⟩).self 0).effects = [] := by
  constructor <;> rfl

/-- C8, amended: the search object that `Join` reads is replaced when a search is
started: for every state, `RefreshServerList` installs a new search object that
holds no result, whatever was held before, and no other handler changes the
search object.  In a state with a valid session interface whose search object
holds `R`, so with no `RefreshServerList` since `R` was delivered, `Join(i)` with
`i < |R|` issues exactly one `joinSession`, against `R[i]`. -/
theorem RefreshServerList_replaces_search :
    (∀ (E : Engine) (G : GameInstance),
      (RefreshServerList E G).self.SessionSearch =
        some ⟨[], 100, [⟨SEARCH_PRESENCE, true, EOnlineComparisonOp.Equals⟩]⟩) ∧
    (∀ (T : IntegerType) (E : Engine) (G : GameInstance) (name : String) (SessionName : FName)
        (Success : Bool) (Index : Nat) (Result : EOnJoinSessionCompleteResult),
      (Host E G name).self.SessionSearch = G.SessionSearch ∧
      (CreateSession E G).self.SessionSearch = G.SessionSearch ∧
      (OnCreateSessionComplete E G SessionName Success).self.SessionSearch = G.SessionSearch ∧
      (OnDestroySessionComplete E G SessionName Success).self.SessionSearch = G.SessionSearch ∧
      (OnFindSessionsComplete T E G Success).self.SessionSearch = G.SessionSearch ∧
      (Join E G Index).self.SessionSearch = G.SessionSearch ∧
      (OnJoinSessionComplete E G SessionName Result).self.SessionSearch = G.SessionSearch ∧
      (StartSession E G).self.SessionSearch = G.SessionSearch) ∧
    (∀ (E : Engine) (G : GameInstance) (SessionSearch : FOnlineSessionSearch) (Index : Nat)
        (hindex : Index < SessionSearch.SearchResults.length),
      G.SessionInterface = true → G.SessionSearch = some SessionSearch →
      (Join E G Index).fault = none ∧
      joinSessionCalls (Join E G Index).effects = [SessionSearch.SearchResults[Index]]) := by
  refine ⟨?_, ?_, ?_⟩
  · intro E G
    simp only [RefreshServerList]
    split_ifs <;> rfl
  · intro T E G name SessionName Success Index Result
    refine ⟨?_, ?_, ?_, ?_, ?_, ?_, ?_, ?_⟩
    · rw [Host_self]
    · simp only [CreateSession]; split_ifs <;> rfl
    · simp only [OnCreateSessionComplete]; split_ifs <;> rfl
    · simp only [OnDestroySessionComplete, CreateSession]; split_ifs <;> rfl
    · simp only [OnFindSessionsComplete]; split <;> rfl
    · simp only [Join]
      repeat' (first | rfl | split)
    · simp only [OnJoinSessionComplete]
      repeat' (first | rfl | split)
    · simp only [StartSession]; split_ifs <;> rfl
  · intro E G SessionSearch Index hindex hvalid hsearch
    have h := Join_index_in_range E G SessionSearch Index SessionSearch.SearchResults[Index]
      hvalid hsearch (List.getElem?_eq_getElem hindex)
    exact ⟨h.1, h.2.2⟩

/-- A state for C8 amended: a completed search holds one result and no new
search has been started; `Join(0)` joins that result. -/
theorem RefreshServerList_replaces_search_witness :
    joinSessionCalls
      (Join ⟨"NULL", [], [], true, true, true⟩
        ⟨true,
          some ⟨[⟨"id0", ⟨"host", ⟨true, 4, true, true, []⟩, 1⟩⟩], 100,
            [⟨SEARCH_PRESENCE, true, EOnlineComparisonOp.Equals⟩]⟩,
          "", true⟩ 0).effects =
      [⟨"id0", ⟨"host", ⟨true, 4, true, true, []⟩, 1⟩⟩] :=
  (RefreshServerList_replaces_search.2.2 ⟨"NULL", [], [], true, true, true⟩
    ⟨true,
      some ⟨[⟨"id0", ⟨"host", ⟨true, 4, true, true, []⟩, 1⟩⟩], 100,
        [⟨SEARCH_PRESENCE, true, EOnlineComparisonOp.Equals⟩]⟩,
      "", true⟩ _ 0 (by decide) rfl rfl).2

end PuzzlePlatform
